import Mathlib

/-!
Verification development for the sendzap repository (src/app.py).

Shallow embedding conventions:
  - Python `dict`s that the code iterates in insertion order are modelled as
    association lists `List (key × value)`; updating an existing key replaces
    its value in place, a new key is appended (Python dict semantics).
  - Python numeric values in the quote engine (prices, totals) are modelled as
    exact rationals `ℚ`; the numeric literals of the source (all unit prices
    are whole currency amounts, the rates are 0.40 and 0.10) are read as the
    decimal numbers written.  Python's `round(x, 2)` is modelled as rounding
    to 2 decimal places with ties to even (`money`).
  - In-memory session stores (Python dicts keyed by phone identifier) are
    modelled as functions `String → Option Session`.
  - The wall clock `time.time()` is passed explicitly as an integer `now`.
  - The render-and-send pipeline invoked at SUBMIT (external collaborators)
    is modelled by a boolean oracle `pipelineOk`: `true` means the whole
    `flow_submit` call returned without raising, `false` means some exception
    (renderer, mail transport, validation) was raised inside the `try` block.
-/

namespace Sendzap

/-! ## Rounding: Python `round(x, 2)` over exact rationals -/

/-- Round a rational to the nearest integer, ties to even (Python `round`). -/
def roundHalfEven (q : ℚ) : ℤ :=
  if q - ⌊q⌋ < 1/2 then ⌊q⌋
  else if (1 : ℚ)/2 < q - ⌊q⌋ then ⌊q⌋ + 1
  else if 2 ∣ ⌊q⌋ then ⌊q⌋ else ⌊q⌋ + 1

/-- Embedding of `money(x) = round(float(x), 2)` (src/app.py line 210). -/
def money (x : ℚ) : ℚ :=
  (roundHalfEven (x * 100) : ℚ) / 100

theorem roundHalfEven_intCast (n : ℤ) : roundHalfEven (n : ℚ) = n := by
  unfold roundHalfEven
  norm_num

/-- Rounding a value that is already an exact multiple of a hundredth is the
identity. -/
theorem money_eq_self (x : ℚ) (m : ℤ) (h : x * 100 = (m : ℚ)) : money x = x := by
  unfold money
  rw [h, roundHalfEven_intCast, ← h]
  field_simp

/-- Rounding twice is the same as rounding once. -/
theorem money_idem (x : ℚ) : money (money x) = money x := by
  unfold money
  rw [div_mul_cancel₀ _ (by norm_num : (100 : ℚ) ≠ 0), roundHalfEven_intCast]

/-! ## Pricing catalog (src/app.py lines 48-112) -/

/-- Commercial rule `INSTALL_RATE_DEFAULT = 0.40` (src/app.py line 34). -/
def INSTALL_RATE_DEFAULT : ℚ := 40/100

/-- Commercial rule `DISCOUNT_CASH = 0.10` (src/app.py line 35). -/
def DISCOUNT_CASH : ℚ := 10/100

/-- Commercial rule `CARD_INSTALLMENTS = 3` (src/app.py line 36). -/
def CARD_INSTALLMENTS : ℕ := 3

/-- The `CATALOG` of the WhatsApp flow: (key, label) in source order. -/
def CATALOG : List (String × String) :=
  [("lampadas", "Lampadas"),
   ("interruptores", "Interruptores"),
   ("sensores", "Sensores"),
   ("modulos", "Modulos"),
   ("contatoras", "Contatoras"),
   ("irrigacao", "Irrigacao"),
   ("central_comando", "Central de comando"),
   ("comando_voz", "Comando por voz")]

/-- Embedding of `KEY_BY_INDEX`: 1-based catalog index to key (src/app.py line 59). -/
def KEY_BY_INDEX (i : ℕ) : Option String :=
  if i = 0 then none else (CATALOG[i - 1]?).map Prod.fst

/-- The `CATALOG_TO_SKU` mapping (src/app.py lines 63-72). -/
def CATALOG_TO_SKU : List (String × String) :=
  [("lampadas", "lamp_smart"),
   ("interruptores", "switch_smart"),
   ("sensores", "sensor_presence"),
   ("modulos", "relay_2ch"),
   ("contatoras", "relay_4ch"),
   ("irrigacao", "smart_plug"),
   ("central_comando", "relay_1ch"),
   ("comando_voz", "ir_tv")]

/-- The `UNIT_PRICES` table (src/app.py lines 78-94); every price is a whole amount. -/
def UNIT_PRICES : List (String × ℚ) :=
  [("lamp_smart", 180),
   ("led_strip", 150),
   ("dimmer", 220),
   ("switch_smart", 150),
   ("relay_1ch", 90),
   ("relay_2ch", 140),
   ("relay_4ch", 230),
   ("smart_plug", 120),
   ("ir_ac", 220),
   ("ir_tv", 180),
   ("blinds", 1200),
   ("sensor_presence", 220),
   ("sensor_door", 150),
   ("sensor_leak", 180),
   ("siren", 300)]

/-- The `LABELS` table (src/app.py lines 96-112). -/
def LABELS : List (String × String) :=
  [("lamp_smart", "Lampada inteligente"),
   ("led_strip", "Fita LED / Driver"),
   ("dimmer", "Dimmer inteligente"),
   ("switch_smart", "Interruptor inteligente"),
   ("relay_1ch", "Modulo rele 1 canal"),
   ("relay_2ch", "Modulo rele 2 canais"),
   ("relay_4ch", "Modulo rele 4 canais"),
   ("smart_plug", "Tomada inteligente"),
   ("ir_ac", "IR para ar-condicionado"),
   ("ir_tv", "IR para TV / Projetor"),
   ("blinds", "Motor para persiana"),
   ("sensor_presence", "Sensor de presenca"),
   ("sensor_door", "Sensor de abertura"),
   ("sensor_leak", "Sensor de vazamento"),
   ("siren", "Sirene")]

/-- Embedding of `UNIT_PRICES.get(sku, 0.0)` (src/app.py line 302). -/
def unitPrice (sku : String) : ℚ :=
  (UNIT_PRICES.lookup sku).getD 0

/-- Embedding of `LABELS.get(sku, sku)` (src/app.py line 311). -/
def labelOf (sku : String) : String :=
  (LABELS.lookup sku).getD sku

theorem lookup_mem_values {α β : Type} [BEq α] (l : List (α × β)) (k : α) (v : β)
    (h : l.lookup k = some v) : v ∈ l.map Prod.snd := by
  induction l with
  | nil => simp [List.lookup] at h
  | cons p l ih =>
    rw [List.lookup] at h
    by_cases hk : (k == p.1) = true
    · simp [hk] at h
      simp [h]
    · simp only [Bool.not_eq_true] at hk
      rw [hk] at h
      simp [ih h]

/-- Every configured unit price is a whole number of currency units. -/
theorem exists_int_unitPrice (sku : String) : ∃ n : ℤ, unitPrice sku = (n : ℚ) := by
  unfold unitPrice
  cases h : UNIT_PRICES.lookup sku with
  | none => exact ⟨0, by simp⟩
  | some v =>
    have hv : v ∈ UNIT_PRICES.map Prod.snd := lookup_mem_values _ _ _ h
    have hden : ∀ q ∈ UNIT_PRICES.map Prod.snd, q.den = 1 := by decide
    refine ⟨v.num, ?_⟩
    have := hden v hv
    simp [Option.getD, Rat.coe_int_num_of_den_eq_one this]

/-! ## Quote engine: `compute_quote` (src/app.py lines 292-335) -/

structure BreakdownLine where
  sku : String
  label : String
  qty : ℤ
  unit_price : ℚ
  material : ℚ
deriving DecidableEq

structure Totals where
  material_total : ℚ
  labor_total : ℚ
  grand_total : ℚ
  cash_total : ℚ
  card_installments : ℕ
  card_installment_value : ℚ
  labor_rate_default : ℚ
  cash_discount : ℚ
deriving DecidableEq

structure Quote where
  breakdown : List BreakdownLine
  totals : Totals
deriving DecidableEq

/-- The loop body of `compute_quote` producing one breakdown row per entry
with positive quantity (src/app.py lines 297-315); entries with
`qty_int <= 0` are skipped by `continue`. -/
def quoteLines (items : List (String × ℤ)) : List BreakdownLine :=
  items.filterMap fun p =>
    if p.2 ≤ 0 then none
    else some
      { sku := p.1
        label := labelOf p.1
        qty := p.2
        unit_price := money (unitPrice p.1)
        material := money ((p.2 : ℚ) * unitPrice p.1) }

/-- Accumulation of `material_total` across the loop (src/app.py line 306). -/
def materialRaw (items : List (String × ℤ)) : ℚ :=
  (items.filterMap fun p =>
    if p.2 ≤ 0 then none else some ((p.2 : ℚ) * unitPrice p.1)).sum

/-- Accumulation of `labor_total` across the loop (src/app.py line 307);
`labor = qty_int * unit * INSTALL_RATE_DEFAULT` per item. -/
def laborRaw (items : List (String × ℤ)) : ℚ :=
  (items.filterMap fun p =>
    if p.2 ≤ 0 then none
    else some ((p.2 : ℚ) * unitPrice p.1 * INSTALL_RATE_DEFAULT)).sum

/-- Embedding of `compute_quote` (src/app.py lines 292-335). -/
def computeQuote (items : List (String × ℤ)) : Quote :=
  let material_total := materialRaw items
  let labor_total := laborRaw items
  let grand_total := material_total + labor_total
  let cash_total := grand_total * (1 - DISCOUNT_CASH)
  let installment_value := grand_total / (CARD_INSTALLMENTS : ℚ)
  { breakdown := quoteLines items
    totals :=
      { material_total := money material_total
        labor_total := money labor_total
        grand_total := money grand_total
        cash_total := money cash_total
        card_installments := CARD_INSTALLMENTS
        card_installment_value := money installment_value
        labor_rate_default := INSTALL_RATE_DEFAULT
        cash_discount := DISCOUNT_CASH } }

theorem exists_int_materialRaw (items : List (String × ℤ)) :
    ∃ n : ℤ, materialRaw items = (n : ℚ) := by
  induction items with
  | nil => exact ⟨0, by simp [materialRaw]⟩
  | cons p l ih =>
    obtain ⟨n, hn⟩ := ih
    obtain ⟨u, hu⟩ := exists_int_unitPrice p.1
    by_cases hp : p.2 ≤ 0
    · exact ⟨n, by simp [materialRaw, List.filterMap_cons, hp] at hn ⊢; exact hn⟩
    · refine ⟨p.2 * u + n, ?_⟩
      simp only [materialRaw, List.filterMap_cons, hp, if_false, List.sum_cons] at hn ⊢
      rw [hu, hn]
      push_cast
      ring

theorem laborRaw_eq (items : List (String × ℤ)) :
    laborRaw items = materialRaw items * INSTALL_RATE_DEFAULT := by
  induction items with
  | nil => simp [laborRaw, materialRaw]
  | cons p l ih =>
    by_cases hp : p.2 ≤ 0
    · simp [laborRaw, materialRaw, List.filterMap_cons, hp] at ih ⊢; exact ih
    · simp only [laborRaw, materialRaw, List.filterMap_cons, hp, if_false,
        List.sum_cons] at ih ⊢
      rw [ih]
      ring

/-- Breakdown line as the spec words it: one line per positive-quantity SKU
carrying `material_subtotal = quantity × unit_price`. -/
def specLine (p : String × ℤ) : BreakdownLine :=
  { sku := p.1
    label := labelOf p.1
    qty := p.2
    unit_price := unitPrice p.1
    material := (p.2 : ℚ) * unitPrice p.1 }

/-- Sum of `quantity × unit_price` over SKUs present in the catalog with
positive quantity, as the spec words the material total. -/
def specMaterialSum (items : List (String × ℤ)) : ℚ :=
  ((items.filter fun p => decide (0 < p.2) && (UNIT_PRICES.lookup p.1).isSome).map
    fun p => (p.2 : ℚ) * unitPrice p.1).sum

theorem money_unitPrice (sku : String) : money (unitPrice sku) = unitPrice sku := by
  obtain ⟨n, hn⟩ := exists_int_unitPrice sku
  exact money_eq_self _ (100 * n) (by rw [hn]; push_cast; ring)

theorem money_qty_mul_unitPrice (q : ℤ) (sku : String) :
    money ((q : ℚ) * unitPrice sku) = (q : ℚ) * unitPrice sku := by
  obtain ⟨n, hn⟩ := exists_int_unitPrice sku
  exact money_eq_self _ (q * n * 100) (by rw [hn]; push_cast; ring)

theorem quoteLines_eq_spec (items : List (String × ℤ)) :
    quoteLines items = (items.filter fun p => decide (0 < p.2)).map specLine := by
  induction items with
  | nil => simp [quoteLines]
  | cons p l ih =>
    by_cases hp : p.2 ≤ 0
    · have h0 : ¬ (0 < p.2) := not_lt.mpr hp
      simpa [quoteLines, List.filterMap_cons, List.filter_cons, hp, h0] using ih
    · have h0 : 0 < p.2 := lt_of_not_le hp
      have hd : decide (0 < p.2) = true := decide_eq_true h0
      simp only [quoteLines, List.filterMap_cons, List.filter_cons, hp, if_false,
        hd, if_true, List.map_cons] at ih ⊢
      rw [ih]
      simp [specLine, money_unitPrice, money_qty_mul_unitPrice]

theorem materialRaw_eq_spec (items : List (String × ℤ)) :
    materialRaw items = specMaterialSum items := by
  induction items with
  | nil => simp [materialRaw, specMaterialSum]
  | cons p l ih =>
    by_cases hp : p.2 ≤ 0
    · have h0 : ¬ (0 < p.2) := not_lt.mpr hp
      simpa [materialRaw, specMaterialSum, List.filterMap_cons, List.filter_cons,
        hp, h0] using ih
    · have h0 : 0 < p.2 := lt_of_not_le hp
      have hd : decide (0 < p.2) = true := decide_eq_true h0
      cases hl : UNIT_PRICES.lookup p.1 with
      | none =>
        have hz : unitPrice p.1 = 0 := by simp [unitPrice, hl]
        simp only [materialRaw, specMaterialSum, List.filterMap_cons, List.filter_cons,
          hp, if_false, hd, hl, Option.isSome_none, Bool.and_false,
          Bool.true_and, if_false, List.sum_cons] at ih ⊢
        rw [hz, ih]
        simp [specMaterialSum]
      | some v =>
        simp only [materialRaw, specMaterialSum, List.filterMap_cons, List.filter_cons,
          hp, if_false, hd, hl, Option.isSome_some, Bool.and_true,
          Bool.true_and, if_true, List.sum_cons, List.map_cons] at ih ⊢
        rw [ih]

theorem money_materialRaw (items : List (String × ℤ)) :
    money (materialRaw items) = materialRaw items := by
  obtain ⟨n, hn⟩ := exists_int_materialRaw items
  exact money_eq_self _ (100 * n) (by rw [hn]; push_cast; ring)

/-- C2: `compute_quote` emits exactly one breakdown line per SKU with positive
quantity, in the insertion order of the quantity map, each carrying
`material = quantity × unit_price`; zero (and negative) entries are excluded;
`material_total` is the sum of `quantity × unit_price` over catalog-present
SKUs with positive quantity, SKUs absent from the catalog being priced 0 and
contributing nothing. -/
theorem compute_quote_breakdown_spec (items : List (String × ℤ)) :
    (computeQuote items).breakdown = (items.filter fun p => decide (0 < p.2)).map specLine ∧
    (computeQuote items).totals.material_total = specMaterialSum items ∧
    (∀ sku, UNIT_PRICES.lookup sku = none → unitPrice sku = 0) := by
  refine ⟨quoteLines_eq_spec items, ?_, ?_⟩
  · show money (materialRaw items) = specMaterialSum items
    rw [money_materialRaw, materialRaw_eq_spec]
  · intro sku h
    simp [unitPrice, h]

/-- C3: the returned totals satisfy `grand = material + labor`,
`labor = material × 0.40`, `cash = round(grand × (1 − 0.10), 2)` and
`installment = round(grand / 3, 2)` exactly, and every returned monetary
value is a fixed point of the 2-decimal rounding (so no value is ever
altered by a further rounding). -/
theorem compute_quote_totals_spec (items : List (String × ℤ)) :
    ((computeQuote items).totals.grand_total =
      (computeQuote items).totals.material_total + (computeQuote items).totals.labor_total) ∧
    ((computeQuote items).totals.labor_total =
      (computeQuote items).totals.material_total * INSTALL_RATE_DEFAULT) ∧
    ((computeQuote items).totals.cash_total =
      money ((computeQuote items).totals.grand_total * (1 - DISCOUNT_CASH))) ∧
    ((computeQuote items).totals.card_installments = 3) ∧
    ((computeQuote items).totals.card_installment_value =
      money ((computeQuote items).totals.grand_total / 3)) ∧
    (money (computeQuote items).totals.material_total =
      (computeQuote items).totals.material_total) ∧
    (money (computeQuote items).totals.labor_total =
      (computeQuote items).totals.labor_total) ∧
    (money (computeQuote items).totals.grand_total =
      (computeQuote items).totals.grand_total) ∧
    (money (computeQuote items).totals.cash_total =
      (computeQuote items).totals.cash_total) ∧
    (money (computeQuote items).totals.card_installment_value =
      (computeQuote items).totals.card_installment_value) := by
  obtain ⟨m, hm⟩ := exists_int_materialRaw items
  have hlab : laborRaw items = (m : ℚ) * (40/100) := by
    rw [laborRaw_eq, hm, INSTALL_RATE_DEFAULT]
  have hM : money (materialRaw items) = materialRaw items := money_materialRaw items
  have hL : money (laborRaw items) = laborRaw items := by
    rw [hlab]; exact money_eq_self _ (40 * m) (by push_cast; ring)
  have hG : money (materialRaw items + laborRaw items) = materialRaw items + laborRaw items := by
    rw [hlab, hm]; exact money_eq_self _ (140 * m) (by push_cast; ring)
  have hC : money ((materialRaw items + laborRaw items) * (1 - DISCOUNT_CASH)) =
      (materialRaw items + laborRaw items) * (1 - DISCOUNT_CASH) := by
    rw [hlab, hm, DISCOUNT_CASH]
    exact money_eq_self _ (126 * m) (by push_cast; ring)
  simp only [computeQuote]
  refine ⟨?_, ?_, ?_, rfl, ?_, money_idem _, money_idem _, money_idem _,
    money_idem _, money_idem _⟩
  · rw [hG, hM, hL]
  · rw [hL, hM, laborRaw_eq]
  · rw [hG]
  · rw [hG]
    norm_num [CARD_INSTALLMENTS]

/-! ## String helpers for the wizard (src/app.py lines 162-207, 634-683) -/

/-- Python `str.strip()`: drop leading and trailing whitespace
(`_normalize_text`, src/app.py lines 162-163). -/
def pyStrip (s : String) : String :=
  ⟨((s.data.dropWhile Char.isWhitespace).reverse.dropWhile Char.isWhitespace).reverse⟩

/-- Python `str.lower()` on the command text. -/
def pyLower (s : String) : String :=
  ⟨s.data.map Char.toLower⟩

/-- Accumulating pass behind `re.findall(r"\d+", text)`: maximal runs of
consecutive decimal digits, left to right. `cur` is the current run,
reversed. -/
def digitRunsAux (cur : List Char) : List Char → List (List Char)
  | [] => if cur = [] then [] else [cur.reverse]
  | c :: cs =>
    if c.isDigit then digitRunsAux (c :: cur) cs
    else if cur = [] then digitRunsAux [] cs
    else cur.reverse :: digitRunsAux [] cs

/-- Maximal digit runs of a character list. -/
def digitRuns (s : List Char) : List (List Char) :=
  digitRunsAux [] s

/-- Decimal value of a digit run (Python `int` on a digit string). -/
def digitsToNat (ds : List Char) : ℕ :=
  ds.foldl (fun a c => 10 * a + (c.toNat - '0'.toNat)) 0

/-- Embedding of `[int(n) for n in re.findall(r"\d+", text)]`. -/
def findallNat (s : String) : List ℕ :=
  (digitRuns s.toList).map digitsToNat

/-- Embedding of `list(dict.fromkeys(xs))` (src/app.py line 641): drop later
duplicates, keeping the first occurrence of each element. -/
def uniqueAux (seen : List String) : List String → List String
  | [] => []
  | x :: xs => if x ∈ seen then uniqueAux seen xs else x :: uniqueAux (x :: seen) xs

/-- Deduplicate keeping first-seen order. -/
def uniqueKeepOrder (l : List String) : List String :=
  uniqueAux [] l

/-- Python dict assignment `m[k] = v`: replace in place if the key exists,
append otherwise. -/
def dictInsert (m : List (String × ℕ)) (k : String) (v : ℕ) : List (String × ℕ) :=
  match m with
  | [] => [(k, v)]
  | p :: rest => if p.1 = k then (k, v) :: rest else p :: dictInsert rest k v

/-- Embedding of `_is_email` (src/app.py lines 166-168), the anchored pattern
of one or more non-space non-at characters, an at sign, one or more non-space
non-at characters, a dot, then at least two non-space non-at characters.  The
input is stripped first as in the source.  A string matches exactly when it
has no whitespace, exactly one at sign that is not first, and the part after
the at sign contains a dot preceded by at least one character and followed by
at least two. -/
def isEmail (email : String) : Bool :=
  let cs := (pyStrip email).toList
  let localPart := cs.takeWhile (· ≠ '@')
  match cs.dropWhile (· ≠ '@') with
  | [] => false
  | _ :: domain =>
    cs.all (fun c => !c.isWhitespace)
      && !localPart.isEmpty
      && domain.all (· ≠ '@')
      && ((domain.drop 1).take (domain.length - 3)).contains '.'

/-! ## Catalog wizard sessions (src/app.py lines 122-159, 550-732) -/

/-- The wizard states ever assigned by `/twilio/whatsapp`.  The transient
"SUBMIT" marker set at the start of the confirm branch is always overwritten
before the handler returns, so it is never observable between steps. -/
inductive WState
  | MENU
  | CLIENT_NAME
  | CLIENT_EMAIL
  | SELECT_ITEMS
  | QTY
  | SUMMARY
deriving DecidableEq

/-- The draft of `_get_session` / `_reset_draft` (src/app.py lines 133-140,
152-159). -/
structure Draft where
  client_name : Option String
  client_email : Option String
  selected_keys : List String
  quantities : List (String × ℕ)
deriving DecidableEq

/-- A `/twilio/whatsapp` session record. -/
structure Session where
  state : WState
  draft : Draft
  updated_at : ℤ
deriving DecidableEq

/-- The draft written by `_reset_draft` and for fresh sessions. -/
def emptyDraft : Draft :=
  { client_name := none, client_email := none, selected_keys := [], quantities := [] }

/-- The session created by `_get_session` for an absent key. -/
def freshSession (now : ℤ) : Session :=
  { state := .MENU, draft := emptyDraft, updated_at := now }

/-- Embedding of `_next_qty_key` (src/app.py lines 203-207): first selected key without a
stored quantity. -/
def nextQtyKey (d : Draft) : Option String :=
  d.selected_keys.find? fun k => (d.quantities.lookup k).isNone

/-- Global cancel commands (src/app.py line 567). -/
def CANCEL_CMDS : List String := ["cancelar", "cancel", "cancela", "3"]

/-- Global menu commands (src/app.py line 574). -/
def MENU_CMDS : List String := ["menu", "inicio", "start"]

/-- MENU commands starting a new proposal (src/app.py line 583). -/
def START_CMDS : List String := ["1", "iniciar", "nova", "novo"]

/-- MENU commands resuming a proposal (src/app.py line 589). -/
def CONTINUE_CMDS : List String := ["2", "continuar", "retomar"]

/-- SUMMARY commands routing back to item selection (src/app.py line 686). -/
def EDIT_CMDS : List String := ["editar", "edit", "2"]

/-- SUMMARY commands triggering the terminal SUBMIT action (line 691). -/
def CONFIRM_CMDS : List String := ["confirmar", "confirm", "1"]

/-- Removal of a selected item when its quantity is given as 0
(src/app.py line 672). -/
def removeSelected (d : Draft) (k : String) : Draft :=
  { d with selected_keys := d.selected_keys.filter fun x => decide (x ≠ k) }

/-- Embedding of the session transition of the `/twilio/whatsapp` handler
(src/app.py lines 550-732).  `now` stands for `time.time()`; `pipelineOk`
tells whether the render-and-send pipeline (`flow_submit`: quote, PDF
rendering, mail dispatch) invoked at the terminal SUBMIT action returned
without raising.  The outbound reply text, which never feeds back into the
stored state, is not part of the embedding. -/
def twilioStep (now : ℤ) (pipelineOk : Bool) (s : Session) (body : String) : Session :=
  let incoming := pyStrip body
  let cmd := pyLower incoming
  let draft := s.draft
  if cmd ∈ CANCEL_CMDS then
    { state := .MENU, draft := emptyDraft, updated_at := now }
  else if cmd ∈ MENU_CMDS then
    { s with state := .MENU, updated_at := now }
  else match s.state with
  | .MENU =>
    if cmd ∈ START_CMDS then
      { state := .CLIENT_NAME, draft := emptyDraft, updated_at := now }
    else if cmd ∈ CONTINUE_CMDS then
      if draft.client_name.getD "" = "" then
        { state := .CLIENT_NAME, draft := emptyDraft, updated_at := now }
      else if draft.client_email.getD "" = "" then
        { s with state := .CLIENT_EMAIL, updated_at := now }
      else if draft.selected_keys = [] then
        { s with state := .SELECT_ITEMS, updated_at := now }
      else match nextQtyKey draft with
        | some _ => { s with state := .QTY, updated_at := now }
        | none => { s with state := .SUMMARY, updated_at := now }
    else s
  | .CLIENT_NAME =>
    if incoming.length < 2 then s
    else { state := .CLIENT_EMAIL, draft := { draft with client_name := some incoming },
           updated_at := now }
  | .CLIENT_EMAIL =>
    if !isEmail incoming then s
    else { state := .SELECT_ITEMS, draft := { draft with client_email := some incoming },
           updated_at := now }
  | .SELECT_ITEMS =>
    let chosen := uniqueKeepOrder ((findallNat incoming).filterMap KEY_BY_INDEX)
    if chosen = [] then s
    else { state := .QTY,
           draft := { draft with selected_keys := chosen, quantities := [] },
           updated_at := now }
  | .QTY =>
    match nextQtyKey draft with
    | none => { s with state := .SUMMARY, updated_at := now }
    | some k =>
      match findallNat incoming with
      | [] => s
      | q :: _ =>
        if q < 0 ∨ 100000 < q then s
        else
          let draft' := if q = 0 then removeSelected draft k
                        else { draft with quantities := dictInsert draft.quantities k q }
          match nextQtyKey draft' with
          | some _ => { s with draft := draft', updated_at := now }
          | none => { state := .SUMMARY, draft := draft', updated_at := now }
  | .SUMMARY =>
    if cmd ∈ EDIT_CMDS then
      { s with state := .SELECT_ITEMS, updated_at := now }
    else if cmd ∈ CONFIRM_CMDS then
      if pipelineOk then { state := .MENU, draft := emptyDraft, updated_at := now }
      else { s with state := .SUMMARY, updated_at := now }
    else s

/-! ## Association list facts used by the wizard proofs -/

theorem lookup_ne_none_of_mem {m : List (String × ℕ)} {p : String × ℕ} (h : p ∈ m) :
    m.lookup p.1 ≠ none := by
  induction m with
  | nil => simp at h
  | cons q m ih =>
    obtain ⟨a, b⟩ := q
    rcases List.mem_cons.mp h with rfl | h'
    · simp [List.lookup]
    · by_cases hq : (p.1 == a) = true
      · simp [List.lookup, hq]
      · simp only [Bool.not_eq_true] at hq
        simp only [List.lookup, hq]
        exact ih h'

theorem mem_dictInsert {m : List (String × ℕ)} {k : String} {v : ℕ} {p : String × ℕ}
    (h : p ∈ dictInsert m k v) : p = (k, v) ∨ p ∈ m := by
  induction m with
  | nil => simp [dictInsert] at h; simp [h]
  | cons q m ih =>
    by_cases hq : q.1 = k
    · rw [dictInsert, if_pos hq] at h
      rcases List.mem_cons.mp h with rfl | h'
      · exact Or.inl rfl
      · exact Or.inr (List.mem_cons_of_mem _ h')
    · rw [dictInsert, if_neg hq] at h
      rcases List.mem_cons.mp h with rfl | h'
      · exact Or.inr (List.mem_cons_self _ _)
      · rcases ih h' with h'' | h''
        · exact Or.inl h''
        · exact Or.inr (List.mem_cons_of_mem _ h'')

theorem nextQtyKey_mem {d : Draft} {k : String} (h : nextQtyKey d = some k) :
    k ∈ d.selected_keys :=
  List.mem_of_find?_eq_some h

theorem nextQtyKey_lookup_none {d : Draft} {k : String} (h : nextQtyKey d = some k) :
    d.quantities.lookup k = none := by
  have := List.find?_some h
  simpa using this

/-! ## C6: the global cancel command -/

/-- C6: in any wizard state, an inbound text that equals `cancelar` or
`cancel` after stripping and lowercasing resets the session to MENU with an
empty draft, before any per-state handling. -/
theorem cancel_resets_session (now : ℤ) (ok : Bool) (s : Session) (body : String)
    (h : pyLower (pyStrip body) = "cancelar" ∨ pyLower (pyStrip body) = "cancel") :
    twilioStep now ok s body = { state := .MENU, draft := emptyDraft, updated_at := now } := by
  have hc : pyLower (pyStrip body) ∈ CANCEL_CMDS := by
    rcases h with h | h <;> simp [CANCEL_CMDS, h]
  simp [twilioStep, hc]

/-- Witness for `cancel_resets_session`: cancelling from a mid-flight SUMMARY
session with a full draft. -/
theorem cancel_resets_session_witness :
    twilioStep 9 true
      { state := .SUMMARY,
        draft := { client_name := some "Bob", client_email := some "b@c.com",
                   selected_keys := ["sensores"], quantities := [("sensores", 2)] },
        updated_at := 1 }
      " CANCELAR " =
      { state := .MENU, draft := emptyDraft, updated_at := 9 } :=
  cancel_resets_session 9 true _ " CANCELAR " (Or.inl (by decide))

/-! ## C1: SUBMIT failure keeps the SUMMARY state and the draft -/

/-- C1: from SUMMARY, a confirm command runs the terminal SUBMIT action; if
the render-and-send pipeline raises, the session is back in SUMMARY with
every draft field unchanged, and only a pipeline run that completes without
raising clears the draft and returns to MENU. -/
theorem submit_failure_keeps_summary (now : ℤ) (s : Session) (body : String)
    (hstate : s.state = .SUMMARY)
    (hcmd : pyLower (pyStrip body) ∈ CONFIRM_CMDS) :
    (twilioStep now false s body).state = .SUMMARY ∧
    (twilioStep now false s body).draft = s.draft ∧
    (twilioStep now true s body).state = .MENU ∧
    (twilioStep now true s body).draft = emptyDraft := by
  simp only [CONFIRM_CMDS, List.mem_cons, List.mem_singleton, List.not_mem_nil,
    or_false] at hcmd
  have h1 : pyLower (pyStrip body) ∉ CANCEL_CMDS := by
    rcases hcmd with h | h | h <;> simp [CANCEL_CMDS, h]
  have h2 : pyLower (pyStrip body) ∉ MENU_CMDS := by
    rcases hcmd with h | h | h <;> simp [MENU_CMDS, h]
  have h3 : pyLower (pyStrip body) ∉ EDIT_CMDS := by
    rcases hcmd with h | h | h <;> simp [EDIT_CMDS, h]
  have h4 : pyLower (pyStrip body) ∈ CONFIRM_CMDS := by
    rcases hcmd with h | h | h <;> simp [CONFIRM_CMDS, h]
  obtain ⟨st, d, t⟩ := s
  have hst : st = .SUMMARY := hstate
  subst hst
  simp [twilioStep, h1, h2, h3, h4]

/-- Witness for `submit_failure_keeps_summary` on a concrete full draft and
the confirm command `Confirmar`. -/
theorem submit_failure_keeps_summary_witness :
    (twilioStep 3 false
        { state := .SUMMARY,
          draft := { client_name := some "Eva", client_email := some "eva@ex.com",
                     selected_keys := ["lampadas", "sensores"],
                     quantities := [("lampadas", 2), ("sensores", 1)] },
          updated_at := 0 } "Confirmar").state = .SUMMARY ∧
    (twilioStep 3 false
        { state := .SUMMARY,
          draft := { client_name := some "Eva", client_email := some "eva@ex.com",
                     selected_keys := ["lampadas", "sensores"],
                     quantities := [("lampadas", 2), ("sensores", 1)] },
          updated_at := 0 } "Confirmar").draft =
      { client_name := some "Eva", client_email := some "eva@ex.com",
        selected_keys := ["lampadas", "sensores"],
        quantities := [("lampadas", 2), ("sensores", 1)] } ∧
    (twilioStep 3 true
        { state := .SUMMARY,
          draft := { client_name := some "Eva", client_email := some "eva@ex.com",
                     selected_keys := ["lampadas", "sensores"],
                     quantities := [("lampadas", 2), ("sensores", 1)] },
          updated_at := 0 } "Confirmar").state = .MENU ∧
    (twilioStep 3 true
        { state := .SUMMARY,
          draft := { client_name := some "Eva", client_email := some "eva@ex.com",
                     selected_keys := ["lampadas", "sensores"],
                     quantities := [("lampadas", 2), ("sensores", 1)] },
          updated_at := 0 } "Confirmar").draft = emptyDraft :=
  submit_failure_keeps_summary 3 _ "Confirmar" rfl (by decide)

/-! ## C4: the QTY state -/

/-- A QTY-state session whose pending item is `lampadas`. -/
def qtySession : Session :=
  { state := .QTY,
    draft := { client_name := some "Ana", client_email := some "ana@ex.com",
               selected_keys := ["lampadas"], quantities := [] },
    updated_at := 0 }

/-- Counterexample to C4 as stated: with a pending item and the reply `3`
(an in-range quantity), the step does not record quantity 3 — the reply is
intercepted by the global cancel command set, which contains the string `3`,
so the draft is reset and the state jumps to MENU. -/
theorem qty_claim_counterexample :
    nextQtyKey qtySession.draft = some "lampadas" ∧
    (twilioStep 0 true qtySession "3").draft.quantities ≠ [("lampadas", 3)] ∧
    (twilioStep 0 true qtySession "3").draft = emptyDraft ∧
    (twilioStep 0 true qtySession "3").state = .MENU := by decide

/-- C4 (amended to exclude the global commands): in the QTY state with a
pending item, a reply carrying no integer or a first integer above 100000
leaves the session unchanged; a first integer in 1..100000 is recorded for
the pending item leaving the other draft fields unchanged; a first integer 0
removes the pending item from the selection instead of storing a zero, and
that removal is idempotent. -/
theorem qty_step_spec (now : ℤ) (ok : Bool) (s : Session) (body : String) (k : String)
    (hstate : s.state = .QTY)
    (hk : nextQtyKey s.draft = some k)
    (hc : pyLower (pyStrip body) ∉ CANCEL_CMDS)
    (hm : pyLower (pyStrip body) ∉ MENU_CMDS) :
    (findallNat (pyStrip body) = [] → twilioStep now ok s body = s) ∧
    (∀ q rest, findallNat (pyStrip body) = q :: rest → 100000 < q →
      twilioStep now ok s body = s) ∧
    (∀ q rest, findallNat (pyStrip body) = q :: rest → 1 ≤ q → q ≤ 100000 →
      (twilioStep now ok s body).draft.quantities = dictInsert s.draft.quantities k q ∧
      (twilioStep now ok s body).draft.selected_keys = s.draft.selected_keys ∧
      (twilioStep now ok s body).draft.client_name = s.draft.client_name ∧
      (twilioStep now ok s body).draft.client_email = s.draft.client_email) ∧
    (∀ rest, findallNat (pyStrip body) = 0 :: rest →
      (twilioStep now ok s body).draft = removeSelected s.draft k) ∧
    (∀ d kk, removeSelected (removeSelected d kk) kk = removeSelected d kk) := by
  obtain ⟨st, d, t⟩ := s
  have hst : st = .QTY := hstate
  subst hst
  have hkd : nextQtyKey d = some k := hk
  refine ⟨?_, ?_, ?_, ?_, ?_⟩
  · intro hfa
    simp [twilioStep, hc, hm, hkd, hfa]
  · intro q rest hfa hq
    simp [twilioStep, hc, hm, hkd, hfa, hq]
  · intro q rest hfa h1 h2
    have hq : ¬ (q < 0 ∨ 100000 < q) := by omega
    have hq2 : ¬ (100000 < q) := by omega
    have h0 : ¬ (q = 0) := by omega
    cases hn : nextQtyKey { d with quantities := dictInsert d.quantities k q } with
    | none => simp [twilioStep, hc, hm, hkd, hfa, hq, hq2, h0, hn]
    | some k' => simp [twilioStep, hc, hm, hkd, hfa, hq, hq2, h0, hn]
  · intro rest hfa
    have hq : ¬ ((0 : ℕ) < 0 ∨ 100000 < (0 : ℕ)) := by omega
    cases hn : nextQtyKey (removeSelected d k) with
    | none => simp [twilioStep, hc, hm, hkd, hfa, hq, hn]
    | some k' => simp [twilioStep, hc, hm, hkd, hfa, hq, hn]
  · intro dd kk
    have : ∀ l : List String,
        (l.filter fun x => decide (x ≠ kk)).filter (fun x => decide (x ≠ kk)) =
          l.filter fun x => decide (x ≠ kk) := by
      intro l
      rw [List.filter_filter]
      simp
    simp [removeSelected, this]

/-- Witness for `qty_step_spec`: the reply `5` records quantity 5 for the
pending item `lampadas`. -/
theorem qty_step_spec_witness :
    (twilioStep 0 true qtySession "5").draft.quantities =
      dictInsert qtySession.draft.quantities "lampadas" 5 ∧
    (twilioStep 0 true qtySession "5").draft.selected_keys =
      qtySession.draft.selected_keys ∧
    (twilioStep 0 true qtySession "5").draft.client_name =
      qtySession.draft.client_name ∧
    (twilioStep 0 true qtySession "5").draft.client_email =
      qtySession.draft.client_email :=
  (qty_step_spec 0 true qtySession "5" "lampadas" rfl (by decide) (by decide)
    (by decide)).2.2.1 5 [] (by decide) (by decide) (by decide)

/-! ## C5: the SELECT_ITEMS state -/

/-- A SELECT_ITEMS-state session with client data already collected. -/
def selectSession : Session :=
  { state := .SELECT_ITEMS,
    draft := { client_name := some "Bia", client_email := some "bia@ex.com",
               selected_keys := [], quantities := [] },
    updated_at := 0 }

/-- Counterexample to C5 as stated: the inbound text `3` holds the valid
catalog index 3, yet the step does not select entry 3 (`sensores`) — the
reply is intercepted by the global cancel command set, which contains the
string `3`, so the draft is reset and the state jumps to MENU. -/
theorem select_items_claim_counterexample :
    (twilioStep 0 true selectSession "3").draft.selected_keys ≠ ["sensores"] ∧
    (twilioStep 0 true selectSession "3").state = .MENU ∧
    (twilioStep 0 true selectSession "3").draft = emptyDraft := by decide

/-- C5 (amended to exclude the global commands): in SELECT_ITEMS the step
collects every integer in the text, keeps valid 1-based catalog indices
(out-of-range indices map to nothing and are dropped silently),
deduplicates preserving first-seen order; with no valid index the session is
unchanged, otherwise the selection is stored, the quantity map cleared and
the state advances to QTY; `1,3,8` selects entries 1, 3, 8 in order and
`1,1,3` collapses to the selection of `1,3`. -/
theorem select_items_spec (now : ℤ) (ok : Bool) (s : Session) (body : String)
    (hstate : s.state = .SELECT_ITEMS)
    (hc : pyLower (pyStrip body) ∉ CANCEL_CMDS)
    (hm : pyLower (pyStrip body) ∉ MENU_CMDS) :
    (uniqueKeepOrder ((findallNat (pyStrip body)).filterMap KEY_BY_INDEX) = [] →
      twilioStep now ok s body = s) ∧
    (∀ ks, uniqueKeepOrder ((findallNat (pyStrip body)).filterMap KEY_BY_INDEX) = ks →
      ks ≠ [] →
      twilioStep now ok s body =
        { state := .QTY,
          draft := { s.draft with selected_keys := ks, quantities := [] },
          updated_at := now }) ∧
    (∀ i, 9 ≤ i → KEY_BY_INDEX i = none) ∧
    KEY_BY_INDEX 0 = none ∧
    uniqueKeepOrder ((findallNat "1,3,8").filterMap KEY_BY_INDEX) =
      ["lampadas", "sensores", "comando_voz"] ∧
    uniqueKeepOrder ((findallNat "1,1,3").filterMap KEY_BY_INDEX) =
      uniqueKeepOrder ((findallNat "1,3").filterMap KEY_BY_INDEX) := by
  obtain ⟨st, d, t⟩ := s
  have hst : st = .SELECT_ITEMS := hstate
  subst hst
  refine ⟨?_, ?_, ?_, by decide, by decide, by decide⟩
  · intro hks
    simp [twilioStep, hc, hm, hks]
  · intro ks hks hne
    simp [twilioStep, hc, hm, hks, hne]
  · intro i hi
    have h0 : i ≠ 0 := by omega
    have hlen : CATALOG.length ≤ i - 1 := by simp [CATALOG]; omega
    simp [KEY_BY_INDEX, h0, List.getElem?_eq_none hlen]

/-- Witness for `select_items_spec`: the text `1,3,8` selects entries 1, 3
and 8 in order, clears the quantity map and advances to QTY. -/
theorem select_items_spec_witness :
    twilioStep 2 true selectSession "1,3,8" =
      { state := .QTY,
        draft := { selectSession.draft with
                   selected_keys := ["lampadas", "sensores", "comando_voz"],
                   quantities := [] },
        updated_at := 2 } :=
  (select_items_spec 2 true selectSession "1,3,8" rfl (by decide) (by decide)).2.1
    ["lampadas", "sensores", "comando_voz"] (by decide) (by decide)

/-! ## C10: invariant of reachable wizard drafts -/

/-- The draft invariant: every stored quantity belongs to a selected key and
lies in 1..100000 (in particular no zero quantity is ever stored). -/
def draftInv (d : Draft) : Prop :=
  ∀ p ∈ d.quantities, p.1 ∈ d.selected_keys ∧ 1 ≤ p.2 ∧ p.2 ≤ 100000

theorem draftInv_empty : draftInv emptyDraft := by
  intro p hp
  simp [emptyDraft] at hp

/-- One wizard step preserves the draft invariant. -/
theorem twilioStep_preserves_draftInv (now : ℤ) (ok : Bool) (s : Session) (body : String)
    (h : draftInv s.draft) : draftInv (twilioStep now ok s body).draft := by
  obtain ⟨st, d, t⟩ := s
  simp only [twilioStep]
  by_cases hc : pyLower (pyStrip body) ∈ CANCEL_CMDS
  · simpa [hc] using draftInv_empty
  · simp only [hc, if_false]
    by_cases hm : pyLower (pyStrip body) ∈ MENU_CMDS
    · simpa [hm] using h
    · simp only [hm, if_false]
      cases st with
      | MENU =>
        by_cases h1 : pyLower (pyStrip body) ∈ START_CMDS
        · simpa [h1] using draftInv_empty
        · simp only [h1, if_false]
          by_cases h2 : pyLower (pyStrip body) ∈ CONTINUE_CMDS
          · simp only [h2, if_true]
            by_cases h3 : d.client_name.getD "" = ""
            · simpa [h3] using draftInv_empty
            · simp only [h3, if_false]
              by_cases h4 : d.client_email.getD "" = ""
              · simpa [h4] using h
              · simp only [h4, if_false]
                by_cases h5 : d.selected_keys = []
                · simpa [h5] using h
                · simp only [h5, if_false]
                  cases hn : nextQtyKey d <;> simpa [hn] using h
          · simpa [h2] using h
      | CLIENT_NAME =>
        by_cases h1 : (pyStrip body).length < 2
        · simpa [h1] using h
        · simp only [h1, if_false]
          intro p hp
          exact h p hp
      | CLIENT_EMAIL =>
        by_cases h1 : isEmail (pyStrip body)
        · simp only [h1, Bool.not_true, Bool.false_eq_true, if_false]
          intro p hp
          exact h p hp
        · simp only [Bool.not_eq_true] at h1
          simpa [h1] using h
      | SELECT_ITEMS =>
        by_cases h1 :
            uniqueKeepOrder ((findallNat (pyStrip body)).filterMap KEY_BY_INDEX) = []
        · simpa [h1] using h
        · simp only [h1, if_false]
          intro p hp
          simp at hp
      | QTY =>
        cases hk : nextQtyKey d with
        | none => simpa [hk] using h
        | some k =>
          simp only [hk]
          cases hfa : findallNat (pyStrip body) with
          | nil => simpa [hfa] using h
          | cons q rest =>
            simp only [hfa]
            by_cases hq : q < 0 ∨ 100000 < q
            · have hq2 : 100000 < q := by omega
              simpa [hq2] using h
            · simp only [hq, if_false]
              by_cases h0 : q = 0
              · subst h0
                have hinv : draftInv (removeSelected d k) := by
                  intro p hp
                  obtain ⟨hmem, hlo, hhi⟩ := h p hp
                  refine ⟨?_, hlo, hhi⟩
                  have hkq : d.quantities.lookup k = none := nextQtyKey_lookup_none hk
                  have hne : p.1 ≠ k := by
                    intro he
                    exact lookup_ne_none_of_mem hp (he ▸ hkq)
                  simp [removeSelected, List.mem_filter, hmem, hne]
                simp only [if_pos rfl]
                cases hn : nextQtyKey (removeSelected d k) <;> simpa [hn] using hinv
              · have hinv :
                    draftInv { d with quantities := dictInsert d.quantities k q } := by
                  intro p hp
                  simp only at hp
                  rcases mem_dictInsert hp with heq | hp'
                  · subst heq
                    refine ⟨?_, ?_, ?_⟩
                    · show k ∈ d.selected_keys
                      exact nextQtyKey_mem hk
                    · show 1 ≤ q
                      omega
                    · show q ≤ 100000
                      omega
                  · obtain ⟨hmem, hlo, hhi⟩ := h p hp'
                    exact ⟨hmem, hlo, hhi⟩
                simp only [h0, if_false]
                cases hn : nextQtyKey { d with quantities := dictInsert d.quantities k q } <;>
                  simpa [hn] using hinv
      | SUMMARY =>
        by_cases h1 : pyLower (pyStrip body) ∈ EDIT_CMDS
        · simpa [h1] using h
        · simp only [h1, if_false]
          by_cases h2 : pyLower (pyStrip body) ∈ CONFIRM_CMDS
          · simp only [h2, if_true]
            cases ok
            · simpa using h
            · simpa using draftInv_empty
          · simpa [h2] using h

/-- Folding the step over a list of inbound messages, each tagged with the
wall-clock time of its arrival and the pipeline outcome of any SUBMIT it
triggers. -/
def runSteps (s : Session) (msgs : List (ℤ × Bool × String)) : Session :=
  msgs.foldl (fun acc m => twilioStep m.1 m.2.1 acc m.2.2) s

theorem runSteps_preserves_draftInv (msgs : List (ℤ × Bool × String)) (s : Session)
    (h : draftInv s.draft) : draftInv (runSteps s msgs).draft := by
  induction msgs generalizing s with
  | nil => simpa [runSteps] using h
  | cons m rest ih =>
    have hstep := twilioStep_preserves_draftInv m.1 m.2.1 s m.2.2 h
    simpa [runSteps] using ih _ hstep

/-- C10: starting from a fresh session, after any sequence of inbound
messages every stored quantity key is a member of the selected keys and
every stored quantity lies in 1..100000; a quantity of 0 is never stored. -/
theorem reachable_sessions_draftInv (now0 : ℤ) (msgs : List (ℤ × Bool × String)) :
    draftInv (runSteps (freshSession now0) msgs).draft :=
  runSteps_preserves_draftInv msgs (freshSession now0) draftInv_empty

/-! ## C7: the two session stores -/

/-- The TTL `SESSION_TTL_SECONDS = 2 * 60 * 60` (src/app.py line 43). -/
def SESSION_TTL_SECONDS : ℤ := 2 * 60 * 60

/-- The `_sessions` dict of the catalog wizard, as a keyed partial map. -/
def Store1 : Type := String → Option Session

/-- Embedding of `_cleanup_sessions` (src/app.py lines 122-126): drop every entry whose
last activity lies more than the TTL in the past. -/
def cleanupSessions (now : ℤ) (st : Store1) : Store1 :=
  fun k => match st k with
    | some v => if SESSION_TTL_SECONDS < now - v.updated_at then none else some v
    | none => none

/-- Embedding of `_get_session` (src/app.py lines 129-144): cleanup, then lookup, creating
a fresh MENU session with an empty draft when absent.  Returns the session
together with the updated store. -/
def getSession1 (now : ℤ) (seller : String) (st : Store1) : Session × Store1 :=
  let cleaned := cleanupSessions now st
  match cleaned seller with
  | some s => (s, cleaned)
  | none =>
    (freshSession now, fun k => if k = seller then some (freshSession now) else cleaned k)

/-- The `WIZARD_ITEMS_ORDER` table (src/app.py lines 241-245). -/
def WIZARD_ITEMS_ORDER : List (String × String) :=
  [("lamp_smart", "Quantas lampadas inteligentes? (0-99)"),
   ("relay_2ch", "Quantos modulos rele 2 canais? (0-99)"),
   ("sensor_presence", "Quantos sensores de presenca? (0-99)")]

/-- The client record of the `/twilio/webhook` wizard. -/
structure Client2 where
  name : String
  email : String
  phone : String
  address : String
deriving DecidableEq

/-- A `SESSIONS` record (src/app.py lines 256-262): note it carries no
last-activity timestamp at all. -/
structure Session2 where
  step : String
  seller_phone : String
  client : Client2
  items : List (String × ℤ)
  notes : String
deriving DecidableEq

/-- The fresh session built by `get_session` for an absent key. -/
def freshSession2 (user_id : String) : Session2 :=
  { step := "idle"
    seller_phone := (user_id.replace "whatsapp:" "").replace " " ""
    client := { name := "", email := "", phone := "", address := "" }
    items := WIZARD_ITEMS_ORDER.map fun p => (p.1, 0)
    notes := "" }

/-- The `SESSIONS` dict of the `/twilio/webhook` wizard. -/
def Store2 : Type := String → Option Session2

/-- Embedding of `get_session` (src/app.py lines 254-263): plain lookup-or-create with no
expiry check and no notion of time. -/
def getSession2 (user_id : String) (st : Store2) : Session2 × Store2 :=
  match st user_id with
  | some s => (s, st)
  | none =>
    (freshSession2 user_id, fun k => if k = user_id then some (freshSession2 user_id) else st k)

/-- A mid-conversation `SESSIONS` record. -/
def staleSession2 : Session2 :=
  { step := "confirm"
    seller_phone := "+551"
    client := { name := "Ana", email := "a@b.com", phone := "", address := "" }
    items := [("lamp_smart", 2)]
    notes := "" }

/-- A `SESSIONS` store holding that record. -/
def staleStore2 : Store2 :=
  fun k => if k = "whatsapp:+551" then some staleSession2 else none

/-- Counterexample to C7 as stated: `get_session`, the lookup of the second
inbound-webhook store (`SESSIONS`), performs no expiry check — its records
store no last-activity timestamp and the function never consults the clock —
so a lookup returns a stored mid-conversation session unchanged no matter
how much time has passed, instead of a fresh one. -/
theorem session_expiry_claim_counterexample :
    (getSession2 "whatsapp:+551" staleStore2).1 = staleSession2 ∧
    (getSession2 "whatsapp:+551" staleStore2).1.step = "confirm" ∧
    (freshSession2 "whatsapp:+551").step = "idle" := by
  refine ⟨rfl, rfl, rfl⟩

/-- C7 (amended to the catalog-wizard store): on every `_get_session` lookup,
an entry whose last activity is older than the TTL is dropped and a fresh
MENU session with an empty draft is returned and stored; the `SESSIONS`
store of `/twilio/webhook`, by contrast, always returns a stored entry
unchanged (it has no expiry check). -/
theorem session_store_expiry (now : ℤ) (seller : String) (st : Store1) (s : Session)
    (h1 : st seller = some s)
    (h2 : SESSION_TTL_SECONDS < now - s.updated_at) :
    (getSession1 now seller st).1 = freshSession now ∧
    cleanupSessions now st seller = none ∧
    (getSession1 now seller st).2 seller = some (freshSession now) ∧
    (∀ uid (st2 : Store2) s2, st2 uid = some s2 → (getSession2 uid st2).1 = s2) := by
  have hc : cleanupSessions now st seller = none := by
    simp [cleanupSessions, h1, h2]
  refine ⟨?_, hc, ?_, ?_⟩
  · simp [getSession1, hc]
  · simp [getSession1, hc]
  · intro uid st2 s2 h
    simp [getSession2, h]

/-- A stale catalog-wizard session last touched at time 0. -/
def oldSession1 : Session :=
  { state := .SUMMARY,
    draft := { client_name := some "Ana", client_email := some "a@b.com",
               selected_keys := ["lampadas"], quantities := [("lampadas", 1)] },
    updated_at := 0 }

/-- A `_sessions` store holding only that stale session. -/
def oldStore1 : Store1 :=
  fun k => if k = "whatsapp:+55" then some oldSession1 else none

/-- Witness for `session_store_expiry`: a lookup 7201 seconds after the last
activity (TTL is 7200) returns and stores a fresh session. -/
theorem session_store_expiry_witness :
    (getSession1 7201 "whatsapp:+55" oldStore1).1 = freshSession 7201 ∧
    cleanupSessions 7201 oldStore1 "whatsapp:+55" = none ∧
    (getSession1 7201 "whatsapp:+55" oldStore1).2 "whatsapp:+55" =
      some (freshSession 7201) ∧
    (∀ uid (st2 : Store2) s2, st2 uid = some s2 → (getSession2 uid st2).1 = s2) :=
  session_store_expiry 7201 "whatsapp:+55" oldStore1 oldSession1 (by decide) (by decide)

/-! ## C8: seller-email CC deduplication -/

/-- One entry of the configured seller directory (`SELLERS_JSON`). -/
structure SellerRec where
  name : Option String
  email : Option String

/-- Embedding of `resolve_seller_email` (src/app.py lines 230-238): directory lookup, the
record's email field, or nothing. -/
def resolveSellerEmail (sellers : String → Option SellerRec) (phone : String) :
    Option String :=
  match sellers phone with
  | none => none
  | some r => r.email

/-- The CC attachment test of `send_email_sendgrid` (src/app.py line 441): a
CC recipient is attached iff `cc_email` is truthy, that is neither absent nor
the empty string. -/
def ccAttached (cc_email : Option String) : Bool :=
  match cc_email with
  | none => false
  | some e => decide (e ≠ "")

/-- The CC that `flow_submit` hands to the mail transport (src/app.py lines
514 and 531): the resolved seller email as is, with no comparison against
the client email. -/
def flowSubmitCcEmail (sellers : String → Option SellerRec) (seller_phone : String) :
    Option String :=
  resolveSellerEmail sellers seller_phone

/-- The CC computed by the confirm branch of `/twilio/webhook` (src/app.py
lines 848-852): the resolved seller email is dropped when it is truthy and
equal, after strip and lowercase, to the client email. -/
def webhookCcEmail (sellers : String → Option SellerRec)
    (seller_phone clientEmail : String) : Option String :=
  match resolveSellerEmail sellers seller_phone with
  | none => none
  | some e =>
    if e ≠ "" ∧ pyLower (pyStrip e) = pyLower (pyStrip clientEmail) then none else some e

/-- A seller directory resolving one phone to `ana@ex.com`. -/
def demoSellers : String → Option SellerRec :=
  fun p => if p = "+5567999" then some { name := some "V", email := some "ana@ex.com" }
           else none

/-- Counterexample to C8 as stated: on the `/flow/submit` path (also taken by
the catalog wizard's terminal action, which calls `flow_submit`), a seller
email equal to the client email `ANA@ex.com` up to case is still attached as
CC — `flow_submit` never compares the two. -/
theorem cc_dedup_claim_counterexample :
    pyLower (pyStrip "ana@ex.com") = pyLower (pyStrip "ANA@ex.com") ∧
    flowSubmitCcEmail demoSellers "+5567999" = some "ana@ex.com" ∧
    ccAttached (flowSubmitCcEmail demoSellers "+5567999") = true := by
  refine ⟨by decide, rfl, by decide⟩

/-- C8 (amended to the `/twilio/webhook` confirm path): there, when the
resolved seller email is non-empty and equals the client email after strip
and lowercase, the CC is dropped and no CC recipient is attached. -/
theorem webhook_cc_dedup (sellers : String → Option SellerRec)
    (phone clientEmail e : String)
    (h : resolveSellerEmail sellers phone = some e)
    (hne : e ≠ "")
    (heq : pyLower (pyStrip e) = pyLower (pyStrip clientEmail)) :
    webhookCcEmail sellers phone clientEmail = none ∧
    ccAttached (webhookCcEmail sellers phone clientEmail) = false := by
  have hnone : webhookCcEmail sellers phone clientEmail = none := by
    simp [webhookCcEmail, h, hne, heq]
  exact ⟨hnone, by simp [hnone, ccAttached]⟩

/-- Witness for `webhook_cc_dedup`: seller email `ana@ex.com` against client
email `ANA@ex.com`. -/
theorem webhook_cc_dedup_witness :
    webhookCcEmail demoSellers "+5567999" "ANA@ex.com" = none ∧
    ccAttached (webhookCcEmail demoSellers "+5567999" "ANA@ex.com") = false :=
  webhook_cc_dedup demoSellers "+5567999" "ANA@ex.com" "ana@ex.com" rfl
    (by decide) (by decide)

/-! ## C9: the mail transport dry run -/

/-- The result dict of `send_email_sendgrid`. -/
structure SendResult where
  sent : Bool
  reason : Option String
deriving DecidableEq

/-- Embedding of `send_email_sendgrid` (src/app.py lines 427-467).  `apiKey`
and `fromEmail` are the environment credentials (`None` or a string, the
empty string being falsy like `None`); `status` is the HTTP status code the
transport answers when a request is made.  `Except.error` stands for the
`RuntimeError` raised on a status outside {200, 202}. -/
def sendEmailSendgrid (apiKey fromEmail : Option String) (status : ℕ) :
    Except String SendResult :=
  if apiKey.getD "" = "" ∨ fromEmail.getD "" = "" then
    Except.ok { sent := false,
                reason := some "SENDGRID_API_KEY/FROM_EMAIL not configured (dry-run)" }
  else if status ≠ 200 ∧ status ≠ 202 then
    Except.error ("SendGrid erro " ++ toString status)
  else
    Except.ok { sent := true, reason := none }

/-- Counterexample to C9 as stated: with credentials configured, the code
raises on every status outside {200, 202}, including the 2xx status 201 —
not only on non-2xx responses. -/
theorem sendgrid_2xx_claim_counterexample :
    sendEmailSendgrid (some "SG.key") (some "from@ex.com") 201 =
      Except.error ("SendGrid erro " ++ toString 201) ∧
    200 ≤ 201 ∧ 201 < 300 := by
  refine ⟨rfl, by norm_num, by norm_num⟩

/-- C9 (amended on the raise condition): with either credential absent the
function returns `sent:false` with a dry-run reason and never raises, and
its result does not depend on the transport at all (no request is made);
with credentials configured it succeeds exactly on status 200 or 202 and
raises exactly on any other status. -/
theorem sendgrid_send_spec (apiKey fromEmail : Option String) (status : ℕ) :
    (apiKey.getD "" = "" ∨ fromEmail.getD "" = "" →
      sendEmailSendgrid apiKey fromEmail status =
        Except.ok { sent := false,
                    reason := some "SENDGRID_API_KEY/FROM_EMAIL not configured (dry-run)" } ∧
      ∀ status2, sendEmailSendgrid apiKey fromEmail status2 =
        sendEmailSendgrid apiKey fromEmail status) ∧
    (¬ (apiKey.getD "" = "" ∨ fromEmail.getD "" = "") →
      ((status = 200 ∨ status = 202) →
        sendEmailSendgrid apiKey fromEmail status =
          Except.ok { sent := true, reason := none }) ∧
      (status ≠ 200 → status ≠ 202 →
        sendEmailSendgrid apiKey fromEmail status =
          Except.error ("SendGrid erro " ++ toString status))) := by
  constructor
  · intro h
    constructor
    · rw [sendEmailSendgrid, if_pos h]
    · intro status2
      rw [sendEmailSendgrid, if_pos h, sendEmailSendgrid, if_pos h]
  · intro h
    constructor
    · intro hs
      have hno : ¬ (status ≠ 200 ∧ status ≠ 202) := by tauto
      rw [sendEmailSendgrid, if_neg h, if_neg hno]
    · intro h1 h2
      rw [sendEmailSendgrid, if_neg h, if_pos ⟨h1, h2⟩]

/-- Witness for `sendgrid_send_spec`: with no API key the call is a dry run
even when the transport would answer 500. -/
theorem sendgrid_send_spec_witness :
    sendEmailSendgrid none (some "from@ex.com") 500 =
      Except.ok { sent := false,
                  reason := some "SENDGRID_API_KEY/FROM_EMAIL not configured (dry-run)" } :=
  ((sendgrid_send_spec none (some "from@ex.com") 500).1 (Or.inl (by decide))).1
